import Mathlib

/-!
# Verification of the Kafka sink core (`src/sinks/kafka/sink.rs`)

Shallow embedding of the event-publishing pipeline of the Kafka sink:
`KafkaSink::run_inner` (topic rendering, request building, concurrency-limited
dispatch) and `healthcheck`.  Collaborating code that lives outside
`src/sinks/kafka/sink.rs` (the `Template` engine, `KafkaRequestBuilder::build`,
the stream driver, `KafkaSinkConfig`) is modelled from the specification, as
noted on each such definition.
-/

set_option autoImplicit false

namespace KafkaSinkSpec

/-- An event: an opaque structured record with addressable string fields,
consumed read-only by this core. -/
structure Event where
  fields : List (String × String)
deriving DecidableEq, Repr

/-- Field lookup inside an event (first binding wins). -/
def Event.get (e : Event) (k : String) : Option String :=
  (e.fields.find? (fun p => p.1 == k)).map (fun p => p.2)

/-- Modelled from the spec: the `Template` type of the templating module is not
under `src/`.  Per the spec, a template is "a pattern of literal and
field-reference segments, parsed exactly once at construction". -/
inductive Seg where
  | lit (s : String)
  | field (name : String)
deriving DecidableEq, Repr

/-- Modelled from the spec: a precompiled template is its list of segments. -/
structure Template where
  segs : List Seg
deriving DecidableEq, Repr

/-- Modelled from the spec: rendering "fails when a referenced field is absent
or unrenderable for that event"; the error carries the offending field name. -/
structure RenderError where
  missingField : String
deriving DecidableEq, Repr

/-- Modelled from the spec: `render(Event) -> Topic | RenderError`, pure and
deterministic — substitute event field values into the segments, failing on
the first absent referenced field. -/
def Template.renderSegs (e : Event) : List Seg → Except RenderError String
  | [] => .ok ""
  | .lit s :: rest =>
    match Template.renderSegs e rest with
    | .ok t => .ok (s ++ t)
    | .error err => .error err
  | .field name :: rest =>
    match e.get name with
    | none => .error ⟨name⟩
    | some v =>
      match Template.renderSegs e rest with
      | .ok t => .ok (v ++ t)
      | .error err => .error err

/-- `Template::render_string` as invoked by the sink on each event. -/
def Template.renderString (t : Template) (e : Event) : Except RenderError String :=
  Template.renderSegs e t.segs

/-- Scans literal characters up to (but not including) the next `{{`,
returning the literal chunk and the remainder. -/
def takeLit : List Char → List Char × List Char
  | [] => ([], [])
  | '{' :: '{' :: rest => ([], '{' :: '{' :: rest)
  | c :: rest =>
    let (l, r) := takeLit rest
    (c :: l, r)

/-- Scans a field reference up to the closing `}}`, returning the field name
characters and the remainder after `}}` (or `none` if `}}` never occurs). -/
def takeField : List Char → Option (List Char × List Char)
  | [] => none
  | '}' :: '}' :: rest => some ([], rest)
  | c :: rest =>
    match takeField rest with
    | some (f, r) => some (c :: f, r)
    | none => none

/-- Modelled from the spec: parsing of the topic template string (done once at
construction, outside `src/`) into literal and `\x7b\x7bname\x7d\x7d`
field-reference segments.  Fuelled recursion; fuel is the input length, which
suffices since every step consumes at least one character. -/
def parseSegs : Nat → List Char → List Seg
  | 0, _ => []
  | _, [] => []
  | fuel + 1, cs =>
    match takeLit cs with
    | (l, r) =>
      let tail :=
        match r with
        | '{' :: '{' :: rest =>
          match takeField rest with
          | some (f, rest2) => Seg.field ⟨f⟩ :: parseSegs fuel rest2
          | none => [Seg.lit ⟨r⟩]
        | _ => []
      if l.isEmpty then tail else Seg.lit ⟨l⟩ :: tail

/-- Modelled from the spec: template construction from the configured string. -/
def Template.parse (s : String) : Template :=
  ⟨parseSegs s.length s.data⟩

example :
    Template.parse "logs-{{service}}" =
      ⟨[Seg.lit "logs-", Seg.field "service"]⟩ := by rfl

example :
    (Template.parse "logs-{{service}}").renderString ⟨[("service", "auth")]⟩ =
      .ok "logs-auth" := by rfl

example :
    (Template.parse "logs-{{service}}").renderString ⟨[("host", "h")]⟩ =
      .error ⟨"service"⟩ := by rfl

/-- Modelled from the spec: transform or serialization failure inside the
request builder is "a per-event BuildError"; the error carries a message. -/
structure BuildFailure where
  message : String
deriving DecidableEq, Repr

/-- A publish request: `\x7btopic, key?, headers[], payload\x7d`, created once
by the request builder and consumed exactly once by the dispatch driver. -/
structure KafkaRequest where
  topic : String
  key : Option String
  headers : List (String × String)
  payload : List Nat
deriving DecidableEq, Repr

/-- The `KafkaRequestBuilder` value constructed in `run_inner` (lines 70-74):
the key selector, the headers selector, and the transformer/encoder pair (the
latter modelled as one opaque encoding function, since transformer and codec
are configuration-chosen functions outside `src/`). -/
structure KafkaRequestBuilder where
  keyField : Option String
  headersKey : Option String
  encode : Event → Except BuildFailure (List Nat)

/-- Modelled from the spec: `KafkaRequestBuilder::build` lives in
`request_builder.rs`, not under `src/`.  Per the spec: resolve the key
selector to an optional key (a missing field yields an absent value, never an
error), resolve the headers selector likewise, and serialize the transformed
event into the payload; serialization or transform failure is a per-event
BuildError. -/
def KafkaRequestBuilder.build (rb : KafkaRequestBuilder) (topic : String)
    (e : Event) : Except BuildFailure KafkaRequest :=
  match rb.encode e with
  | .error err => .error err
  | .ok payload =>
    .ok
      { topic := topic
        key := rb.keyField.bind e.get
        headers :=
          match rb.headersKey with
          | none => []
          | some k =>
            match e.get k with
            | none => []
            | some v => [(k, v)]
        payload := payload }

/-- The `KafkaSink` struct (lines 28-35): the transformer/encoder pair is
modelled as one opaque encoding function; the broker client service is
modelled separately by the dispatch machine. -/
structure KafkaSink where
  encode : Event → Except BuildFailure (List Nat)
  topic : Template
  keyField : Option String
  headersKey : Option String

/-- The request builder assembled from the sink in `run_inner` (lines 70-74). -/
def KafkaSink.requestBuilder (sink : KafkaSink) : KafkaRequestBuilder :=
  { keyField := sink.keyField
    headersKey := sink.headersKey
    encode := sink.encode }

/-- A diagnostic emitted by the pipeline: one `TemplateRenderingError` per
topic-render failure (lines 83-87) and one `SinkRequestBuildError` per
request-build failure (line 97). -/
inductive Diagnostic where
  | templateRenderingError (error : RenderError)
  | sinkRequestBuildError (error : BuildFailure)
deriving DecidableEq, Repr

/-- First stage of `run_inner` (lines 76-92): for each event render the topic;
on failure emit one `TemplateRenderingError` diagnostic and drop the event, on
success pass `(topic, event)` on. -/
def topicStage (tpl : Template) : List Event → List Diagnostic × List (String × Event)
  | [] => ([], [])
  | e :: rest =>
    let (ds, ps) := topicStage tpl rest
    match tpl.renderString e with
    | .error err => (.templateRenderingError err :: ds, ps)
    | .ok topic => (ds, (topic, e) :: ps)

/-- Second stage of `run_inner` (line 93): run the request builder over each
surviving `(topic, event)` pair.  The builder fan-out reorders nothing
observable here, so the stage is an order-preserving map. -/
def buildStage (rb : KafkaRequestBuilder) (ps : List (String × Event)) :
    List (Except BuildFailure KafkaRequest) :=
  ps.map (fun p => rb.build p.1 p.2)

/-- Third stage of `run_inner` (lines 94-102): emit one `SinkRequestBuildError`
diagnostic per failed build and drop it; pass built requests on. -/
def filterErrStage : List (Except BuildFailure KafkaRequest) →
    List Diagnostic × List KafkaRequest
  | [] => ([], [])
  | .error err :: rest =>
    let (ds, rs) := filterErrStage rest
    (.sinkRequestBuildError err :: ds, rs)
  | .ok req :: rest =>
    let (ds, rs) := filterErrStage rest
    (ds, req :: rs)

/-- The requests `run_inner` hands to the dispatch driver (line 103) for a
given finite prefix of the input stream. -/
def runInnerRequests (sink : KafkaSink) (events : List Event) : List KafkaRequest :=
  (filterErrStage (buildStage sink.requestBuilder (topicStage sink.topic events).2)).2

/-- The diagnostics emitted by the topic stage of `run_inner`. -/
def runInnerRenderDiagnostics (sink : KafkaSink) (events : List Event) : List Diagnostic :=
  (topicStage sink.topic events).1

/-- The diagnostics emitted by the build-error stage of `run_inner`. -/
def runInnerBuildDiagnostics (sink : KafkaSink) (events : List Event) : List Diagnostic :=
  (filterErrStage (buildStage sink.requestBuilder (topicStage sink.topic events).2)).1

theorem topicStage_append (tpl : Template) (xs ys : List Event) :
    topicStage tpl (xs ++ ys) =
      ((topicStage tpl xs).1 ++ (topicStage tpl ys).1,
        (topicStage tpl xs).2 ++ (topicStage tpl ys).2) := by
  induction xs with
  | nil => simp [topicStage]
  | cons e rest ih =>
    simp only [List.cons_append, topicStage]
    cases h : tpl.renderString e <;> simp [h, ih]

theorem filterErrStage_append (xs ys : List (Except BuildFailure KafkaRequest)) :
    filterErrStage (xs ++ ys) =
      ((filterErrStage xs).1 ++ (filterErrStage ys).1,
        (filterErrStage xs).2 ++ (filterErrStage ys).2) := by
  induction xs with
  | nil => simp [filterErrStage]
  | cons x rest ih =>
    cases x <;> simp [filterErrStage, ih]

theorem topicStage_cons_error (tpl : Template) (e : Event) (err : RenderError)
    (h : tpl.renderString e = .error err) (rest : List Event) :
    topicStage tpl (e :: rest) =
      (.templateRenderingError err :: (topicStage tpl rest).1,
        (topicStage tpl rest).2) := by
  simp [topicStage, h]

theorem topicStage_cons_ok (tpl : Template) (e : Event) (topic : String)
    (h : tpl.renderString e = .ok topic) (rest : List Event) :
    topicStage tpl (e :: rest) =
      ((topicStage tpl rest).1, (topic, e) :: (topicStage tpl rest).2) := by
  simp [topicStage, h]

/-- C2: for every event whose topic-template rendering fails, that event is
dropped — no publish request is produced for it — exactly one
`TemplateRenderingError` diagnostic is emitted in its place, and the pipeline
processes every surrounding event exactly as it would without the failing
event. -/
theorem render_failure_isolated (sink : KafkaSink) (pre post : List Event)
    (e : Event) (err : RenderError)
    (h : sink.topic.renderString e = .error err) :
    runInnerRequests sink (pre ++ e :: post) = runInnerRequests sink (pre ++ post) ∧
    runInnerRenderDiagnostics sink (pre ++ e :: post) =
      runInnerRenderDiagnostics sink pre ++ [.templateRenderingError err] ++
        runInnerRenderDiagnostics sink post ∧
    runInnerBuildDiagnostics sink (pre ++ e :: post) =
      runInnerBuildDiagnostics sink (pre ++ post) := by
  refine ⟨?_, ?_, ?_⟩ <;>
    simp [runInnerRequests, runInnerRenderDiagnostics, runInnerBuildDiagnostics,
      topicStage_append, topicStage_cons_error _ _ _ h]

/-- Closed instance of `render_failure_isolated`: a template referencing a
field absent from the middle event. -/
theorem render_failure_isolated_witness :
    (Template.parse "logs-{{service}}").renderString ⟨[("host", "h")]⟩ =
      .error ⟨"service"⟩ ∧
    (let sink : KafkaSink :=
      { encode := fun _ => .ok []
        topic := Template.parse "logs-{{service}}"
        keyField := none
        headersKey := none };
    runInnerRequests sink [⟨[("service", "a")]⟩, ⟨[("host", "h")]⟩, ⟨[("service", "b")]⟩] =
      runInnerRequests sink [⟨[("service", "a")]⟩, ⟨[("service", "b")]⟩] ∧
    runInnerRenderDiagnostics sink
        [⟨[("service", "a")]⟩, ⟨[("host", "h")]⟩, ⟨[("service", "b")]⟩] =
      runInnerRenderDiagnostics sink [⟨[("service", "a")]⟩] ++
        [.templateRenderingError ⟨"service"⟩] ++
        runInnerRenderDiagnostics sink [⟨[("service", "b")]⟩] ∧
    runInnerBuildDiagnostics sink
        [⟨[("service", "a")]⟩, ⟨[("host", "h")]⟩, ⟨[("service", "b")]⟩] =
      runInnerBuildDiagnostics sink [⟨[("service", "a")]⟩, ⟨[("service", "b")]⟩]) :=
  ⟨by rfl,
    render_failure_isolated _ [⟨[("service", "a")]⟩] [⟨[("service", "b")]⟩]
      ⟨[("host", "h")]⟩ ⟨"service"⟩ (by rfl)⟩

/-- C3: for every event whose request build fails, the failure stays per-event:
one `SinkRequestBuildError` diagnostic is emitted, the event is dropped, no
request reaches the dispatch driver for it, and every surrounding event is
processed exactly as it would be without the failing event. -/
theorem build_failure_isolated (sink : KafkaSink) (pre post : List Event)
    (e : Event) (topic : String) (berr : BuildFailure)
    (h1 : sink.topic.renderString e = .ok topic)
    (h2 : sink.requestBuilder.build topic e = .error berr) :
    runInnerRequests sink (pre ++ e :: post) = runInnerRequests sink (pre ++ post) ∧
    runInnerBuildDiagnostics sink (pre ++ e :: post) =
      runInnerBuildDiagnostics sink pre ++ [.sinkRequestBuildError berr] ++
        runInnerBuildDiagnostics sink post ∧
    runInnerRenderDiagnostics sink (pre ++ e :: post) =
      runInnerRenderDiagnostics sink (pre ++ post) := by
  refine ⟨?_, ?_, ?_⟩ <;>
    simp [runInnerRequests, runInnerRenderDiagnostics, runInnerBuildDiagnostics,
      topicStage_append, topicStage_cons_ok _ _ _ h1, buildStage,
      filterErrStage_append, filterErrStage, h2]

/-- Closed instance of `build_failure_isolated`: an encoder that rejects the
middle event. -/
theorem build_failure_isolated_witness :
    (let sink : KafkaSink :=
      { encode := fun e => if e.get "bad" = none then .ok [] else .error ⟨"enc"⟩
        topic := ⟨[Seg.lit "t"]⟩
        keyField := none
        headersKey := none };
    sink.topic.renderString ⟨[("bad", "1")]⟩ = .ok "t" ∧
    sink.requestBuilder.build "t" ⟨[("bad", "1")]⟩ = .error ⟨"enc"⟩ ∧
    (runInnerRequests sink [⟨[]⟩, ⟨[("bad", "1")]⟩, ⟨[]⟩] =
      runInnerRequests sink [⟨[]⟩, ⟨[]⟩] ∧
    runInnerBuildDiagnostics sink [⟨[]⟩, ⟨[("bad", "1")]⟩, ⟨[]⟩] =
      runInnerBuildDiagnostics sink [⟨[]⟩] ++ [.sinkRequestBuildError ⟨"enc"⟩] ++
        runInnerBuildDiagnostics sink [⟨[]⟩] ∧
    runInnerRenderDiagnostics sink [⟨[]⟩, ⟨[("bad", "1")]⟩, ⟨[]⟩] =
      runInnerRenderDiagnostics sink [⟨[]⟩, ⟨[]⟩])) :=
  ⟨by rfl, by rfl,
    build_failure_isolated _ [⟨[]⟩] [⟨[]⟩] ⟨[("bad", "1")]⟩ "t" ⟨"enc"⟩ (by rfl) (by rfl)⟩

/-- Rendering the same template against the same event twice, as one
computation returning both results. -/
def renderTwice (t : Template) (e : Event) :
    Except RenderError String × Except RenderError String :=
  (t.renderString e, t.renderString e)

/-- C8: template rendering is pure and deterministic — rendering the same
template against the same event twice yields an identical topic string (or
the identical failure). -/
theorem renderString_deterministic (t : Template) (e : Event) :
    (renderTwice t e).1 = (renderTwice t e).2 := rfl

/-- C9: the template string `logs-\x7b\x7bservice\x7d\x7d` rendered against an
event whose `service` field is `auth` yields the topic `logs-auth`, and the
pipeline produces for that event exactly one publish request whose topic is
`logs-auth`. -/
theorem scenario_logs_auth :
    (Template.parse "logs-{{service}}").renderString ⟨[("service", "auth")]⟩ =
      .ok "logs-auth" ∧
    (runInnerRequests
        { encode := fun _ => .ok []
          topic := Template.parse "logs-{{service}}"
          keyField := none
          headersKey := none }
        [⟨[("service", "auth")]⟩]).map (fun r => r.topic) = ["logs-auth"] := by
  exact ⟨by rfl, by rfl⟩

/-- The in-flight concurrency budget `run_inner` wraps around the broker
client service: `ConcurrencyLimit::new(self.service.clone(), 64)` (line 68).
A fixed literal, independent of the sink configuration. -/
def runInnerConcurrencyBudget : Nat := 64

/-- The timeout (in seconds) passed to the metadata fetch in `healthcheck`:
`Duration::from_secs(3)` (line 130).  A fixed literal, independent of the
sink configuration. -/
def healthcheckTimeoutSecs : Nat := 3

/-- Modelled from the spec: the sink configuration as a record of
"already-resolved values": topic template, optional key field path, optional
headers field path, codec selection (an opaque encoding function), concurrency
budget size, builder fan-out limit, health-check timeout. -/
structure KafkaSinkConfig where
  topic : Template
  keyField : Option String
  headersKey : Option String
  encode : Event → Except BuildFailure (List Nat)
  concurrencyBudget : Nat
  builderFanout : Nat
  healthTimeoutSecs : Nat

/-- The pure field part of `KafkaSink::new` (lines 47-62): the template, key
field, headers field and encoding are taken from the configuration (producer
creation, which is external I/O, is modelled separately). -/
def KafkaSink.new (cfg : KafkaSinkConfig) : KafkaSink :=
  { encode := cfg.encode
    topic := cfg.topic
    keyField := cfg.keyField
    headersKey := cfg.headersKey }

/-- The request-builder fan-out `run_inner` passes on line 93:
`default_request_builder_concurrency_limit()`, the process-wide default,
independent of the sink configuration. -/
def runInnerBuilderFanout (processDefault : Nat) (cfg : KafkaSinkConfig) : Nat :=
  processDefault

/-- A concrete configuration whose budget, fan-out and timeout differ from the
literals in the code. -/
def exampleConfig : KafkaSinkConfig :=
  { topic := ⟨[Seg.lit "t"]⟩
    keyField := none
    headersKey := none
    encode := fun _ => .ok []
    concurrencyBudget := 5
    builderFanout := 7
    healthTimeoutSecs := 10 }

/-- C5, counterexample: for a configuration with budget 5, fan-out 7 and
timeout 10, the values used at run time are 64, the process default, and 3 —
not the configured ones. -/
theorem config_limits_not_consumed :
    ¬ (runInnerConcurrencyBudget = exampleConfig.concurrencyBudget ∧
      runInnerBuilderFanout 64 exampleConfig = exampleConfig.builderFanout ∧
      healthcheckTimeoutSecs = exampleConfig.healthTimeoutSecs) := by
  intro h
  exact absurd h.1 (by decide)

/-- C5, amended: the topic template, key field, headers field and codec are
consumed from the configuration, but the in-flight publish bound is the fixed
literal 64, the build fan-out is the process-wide default limit, and the
metadata-fetch timeout is the fixed literal 3 seconds, each independent of the
configuration. -/
theorem config_consumption (cfg : KafkaSinkConfig) (processDefault : Nat) :
    (KafkaSink.new cfg).topic = cfg.topic ∧
    (KafkaSink.new cfg).keyField = cfg.keyField ∧
    (KafkaSink.new cfg).headersKey = cfg.headersKey ∧
    runInnerConcurrencyBudget = 64 ∧
    runInnerBuilderFanout processDefault cfg = processDefault ∧
    healthcheckTimeoutSecs = 3 :=
  ⟨rfl, rfl, rfl, rfl, rfl, rfl⟩

/-- Modelled from the spec: the state of the dispatch driver — the requests
not yet admitted, and the number of outstanding
(dispatched-but-unresolved) publishes at the broker client service. -/
structure DriverState where
  pending : List KafkaRequest
  inFlight : Nat
deriving DecidableEq, Repr

/-- Modelled from the spec: one transition of the dispatch driver.  `acquire`
acquires a budget unit (possible only while a unit is free) and dispatches the
next request; `resolve` is the resolution of one outstanding publish — success
or failure, both only surfaced to diagnostics — which releases its unit. -/
inductive DriverStep (budget : Nat) : DriverState → DriverState → Prop where
  | acquire (r : KafkaRequest) (rest : List KafkaRequest) (n : Nat)
      (h : n < budget) : DriverStep budget ⟨r :: rest, n⟩ ⟨rest, n + 1⟩
  | resolve (p : List KafkaRequest) (n : Nat) :
      DriverStep budget ⟨p, n + 1⟩ ⟨p, n⟩

/-- States the driver can pass through, starting from `init`. -/
inductive DriverReachable (budget : Nat) (init : DriverState) : DriverState → Prop where
  | refl : DriverReachable budget init init
  | step {s t : DriverState} : DriverReachable budget init s →
      DriverStep budget s t → DriverReachable budget init t

theorem DriverReachable.head {budget : Nat} {s t d : DriverState}
    (hst : DriverStep budget s t) (htd : DriverReachable budget t d) :
    DriverReachable budget s d := by
  induction htd with
  | refl => exact .step .refl hst
  | step hreach hstep ih => exact .step ih hstep

theorem DriverStep.step_inFlight_le {budget : Nat} {s t : DriverState}
    (hstep : DriverStep budget s t) (hs : s.inFlight ≤ budget) :
    t.inFlight ≤ budget := by
  cases hstep with
  | acquire r rest n h => exact h
  | resolve p n => exact Nat.le_of_succ_le hs

theorem DriverReachable.reachable_inFlight_le {budget : Nat} {init s : DriverState}
    (hinit : init.inFlight ≤ budget)
    (h : DriverReachable budget init s) : s.inFlight ≤ budget := by
  induction h with
  | refl => exact hinit
  | step hreach hstep ih => exact hstep.step_inFlight_le ih

/-- C1: in every state the dispatch loop can reach from the start of a run,
the number of outstanding publishes at the broker client service is at most
the concurrency budget (64); from a state using the whole budget, no
transition admits a further request (admission suspends until a `resolve`
frees a unit, and `resolve` is the sole releasing transition). -/
theorem concurrency_budget_invariant (sink : KafkaSink) (events : List Event)
    (s : DriverState)
    (h : DriverReachable runInnerConcurrencyBudget
      ⟨runInnerRequests sink events, 0⟩ s) :
    s.inFlight ≤ runInnerConcurrencyBudget ∧
    (s.inFlight = runInnerConcurrencyBudget →
      ¬ ∃ t, DriverStep runInnerConcurrencyBudget s t ∧ s.inFlight < t.inFlight) := by
  refine ⟨h.reachable_inFlight_le (Nat.zero_le _), ?_⟩
  rintro hfull ⟨t, hstep, hlt⟩
  cases hstep with
  | acquire r rest n hn => exact absurd hfull (Nat.ne_of_lt hn)
  | resolve p n => exact absurd hlt (by simp)

/-- Closed instance of `concurrency_budget_invariant`: after admitting the one
request of a one-event run, one publish is outstanding, within budget. -/
theorem concurrency_budget_invariant_witness :
    (⟨[], 1⟩ : DriverState).inFlight ≤ runInnerConcurrencyBudget ∧
    ((⟨[], 1⟩ : DriverState).inFlight = runInnerConcurrencyBudget →
      ¬ ∃ t, DriverStep runInnerConcurrencyBudget ⟨[], 1⟩ t ∧ 1 < t.inFlight) :=
  concurrency_budget_invariant
    { encode := fun _ => .ok [], topic := ⟨[]⟩, keyField := none, headersKey := none }
    [⟨[]⟩] ⟨[], 1⟩
    (.step .refl (.acquire { topic := "", key := none, headers := [], payload := [] }
      [] 0 (by decide)))

/-- Modelled from the spec: a complete run of the dispatch driver
(`into_driver(service).run()`, lines 103-107, returning `Result<(), ()>`).
`done` — the run completes successfully once the input is exhausted and every
outstanding publish has resolved; `step` — an admission or resolution
transition; `fatal` — a fatal driver error, possible only while the broker
client service is unusable (`brokerUnusable`), the one condition the spec
admits as breaking the run. -/
inductive DriverRun (budget : Nat) (brokerUnusable : Bool) :
    DriverState → Except Unit Unit → Prop where
  | done : DriverRun budget brokerUnusable ⟨[], 0⟩ (.ok ())
  | step {s t : DriverState} {o : Except Unit Unit} :
      DriverStep budget s t → DriverRun budget brokerUnusable t o →
      DriverRun budget brokerUnusable s o
  | fatal (s : DriverState) (h : brokerUnusable = true) :
      DriverRun budget brokerUnusable s (.error ())

theorem DriverRun.ok_drains {budget : Nat} {b : Bool} {s : DriverState}
    (h : DriverRun budget b s (.ok ())) :
    DriverReachable budget s ⟨[], 0⟩ := by
  generalize ho : (Except.ok () : Except Unit Unit) = o at h
  induction h with
  | done => exact .refl
  | step hstep hrun ih => exact (ih ho).head hstep
  | fatal s hb => exact absurd ho (by simp)

theorem DriverRun.error_broker {budget : Nat} {b : Bool} {s : DriverState}
    (h : DriverRun budget b s (.error ())) : b = true := by
  generalize ho : (Except.error () : Except Unit Unit) = o at h
  induction h with
  | done => exact absurd ho (by simp)
  | step hstep hrun ih => exact ih ho
  | fatal s hb => exact hb

theorem DriverRun.all_ok {budget : Nat} {b : Bool} (hb : 0 < budget)
    (reqs : List KafkaRequest) :
    DriverRun budget b ⟨reqs, 0⟩ (.ok ()) := by
  induction reqs with
  | nil => exact .done
  | cons r rest ih => exact .step (.acquire r rest 0 hb) (.step (.resolve rest 0) ih)

/-- C4: the dispatch driver's run completes successfully only when the input
is exhausted and every dispatched publish has resolved (a successful run's
start state drains to the empty, zero-outstanding state); for every input —
whatever events were dropped upstream — a successful run exists while the
broker client stays usable, so per-event drops never make the run fail; and an
overall failure outcome is reported only when the broker client service became
unusable. -/
theorem driver_run_termination (sink : KafkaSink) (events : List Event) (b : Bool) :
    (∀ s : DriverState, DriverRun runInnerConcurrencyBudget b s (.ok ()) →
      DriverReachable runInnerConcurrencyBudget s ⟨[], 0⟩) ∧
    DriverRun runInnerConcurrencyBudget false
      ⟨runInnerRequests sink events, 0⟩ (.ok ()) ∧
    (∀ s : DriverState, DriverRun runInnerConcurrencyBudget b s (.error ()) →
      b = true) :=
  ⟨fun _ h => h.ok_drains, DriverRun.all_ok (by decide) _, fun _ h => h.error_broker⟩

/-- Closed instance of `driver_run_termination`: the empty run succeeds and
its start state is already drained; a two-event run has a successful driver
run. -/
theorem driver_run_termination_witness :
    DriverReachable runInnerConcurrencyBudget ⟨[], 0⟩ ⟨[], 0⟩ ∧
    DriverRun runInnerConcurrencyBudget false
      (⟨runInnerRequests
        { encode := fun _ => .ok [], topic := ⟨[]⟩, keyField := none, headersKey := none }
        [⟨[]⟩, ⟨[]⟩], 0⟩ : DriverState) (.ok ()) :=
  ⟨(driver_run_termination
      { encode := fun _ => .ok [], topic := ⟨[]⟩, keyField := none, headersKey := none }
      [] false).1 ⟨[], 0⟩ .done,
    (driver_run_termination
      { encode := fun _ => .ok [], topic := ⟨[]⟩, keyField := none, headersKey := none }
      [⟨[]⟩, ⟨[]⟩] false).2.1⟩

/-- An error of the broker client library (`rdkafka::error::KafkaError`),
opaque to this core. -/
structure KafkaError where
  code : Nat
deriving DecidableEq, Repr

/-- A broker client configuration (`rdkafka::ClientConfig`), opaque here. -/
structure ClientConfig where
  id : Nat
deriving DecidableEq, Repr

/-- A broker consumer client (`rdkafka::consumer::BaseConsumer`), opaque here. -/
structure BaseConsumer where
  id : Nat
deriving DecidableEq, Repr

/-- The external broker environment faced by `healthcheck`:
`config.to_rdkafka(KafkaRole::Consumer)` (line 113, implemented outside
`src/`), `client.create()` (line 126, rdkafka) and
`consumer.fetch_metadata(topic, timeout)` (lines 129-131, rdkafka), each an
opaque call with an outcome. -/
structure BrokerEnv where
  toRdkafkaConsumer : Except KafkaError ClientConfig
  create : ClientConfig → Except KafkaError BaseConsumer
  fetchMetadata : BaseConsumer → Option String → Nat → Except KafkaError Unit

/-- The single health-error kind: every timeout, connection or authentication
failure of the metadata fetch reaches the caller as the broker client's one
opaque error type, propagated by `?` (line 133). -/
inductive HealthError where
  | kafka (error : KafkaError)
deriving DecidableEq, Repr

/-- The observable outcome of one `healthcheck` invocation.  `panicked` is an
`unwrap` on a failed call — control never returns a `Result` to the caller
from that point of the embedding. -/
inductive HcOutcome where
  | panicked
  | ok
  | failed (error : HealthError)
deriving DecidableEq, Repr

/-- The sentinel event `LogEvent::from_str_legacy("")` (line 114): an event
whose only field is an empty `message`. -/
def emptyEvent : Event := ⟨[("message", "")]⟩

/-- The tail of `healthcheck` from the metadata fetch on (lines 129-133):
`fetch_metadata(topic, 3s).map(drop)`, its error propagated by `?`. -/
def fetchOutcome (env : BrokerEnv) (consumer : BaseConsumer)
    (topic : Option String) : HcOutcome :=
  match env.fetchMetadata consumer topic healthcheckTimeoutSecs with
  | .ok _ => .ok
  | .error e => .failed (.kafka e)

/-- `healthcheck` (lines 111-136): convert the configuration for a consumer
(`unwrap` — line 113), render the topic template against the sentinel event,
on render failure warn and continue with no topic (lines 114-123), create the
consumer (`unwrap` — line 126), fetch metadata scoped to the rendered topic
with the fixed 3-second timeout, and return `Ok` exactly on fetch success.
The `spawn_blocking` transfer to a blocking-capable context does not change
the value computed and is not modelled. -/
def healthcheck (cfg : KafkaSinkConfig) (env : BrokerEnv) : HcOutcome :=
  match env.toRdkafkaConsumer with
  | .error _ => .panicked
  | .ok client =>
    let topic := (cfg.topic.renderString emptyEvent).toOption
    match env.create client with
    | .error _ => .panicked
    | .ok consumer => fetchOutcome env consumer topic

/-- C6: once the probe reaches the broker (conversion and client creation
succeed), it returns `Ok` exactly when the metadata fetch — bounded by the
fixed 3-second timeout it is handed — succeeds, and every fetch failure mode
reaches the caller as the single `HealthError` kind carrying the cause. -/
theorem healthcheck_ok_iff_fetch (cfg : KafkaSinkConfig) (env : BrokerEnv)
    (client : ClientConfig) (consumer : BaseConsumer)
    (h1 : env.toRdkafkaConsumer = .ok client)
    (h2 : env.create client = .ok consumer) :
    (healthcheck cfg env = .ok ↔
      env.fetchMetadata consumer ((cfg.topic.renderString emptyEvent).toOption)
        healthcheckTimeoutSecs = .ok ()) ∧
    (∀ e : KafkaError,
      env.fetchMetadata consumer ((cfg.topic.renderString emptyEvent).toOption)
        healthcheckTimeoutSecs = .error e →
      healthcheck cfg env = .failed (.kafka e)) := by
  cases hf : env.fetchMetadata consumer ((cfg.topic.renderString emptyEvent).toOption)
      healthcheckTimeoutSecs <;>
    simp [healthcheck, fetchOutcome, h1, h2, hf]

/-- Closed instance of `healthcheck_ok_iff_fetch`: with a reachable broker the
probe returns `Ok`. -/
theorem healthcheck_ok_iff_fetch_witness :
    healthcheck exampleConfig
      { toRdkafkaConsumer := .ok ⟨0⟩
        create := fun _ => .ok ⟨0⟩
        fetchMetadata := fun _ _ _ => .ok () } = .ok :=
  (healthcheck_ok_iff_fetch exampleConfig
    { toRdkafkaConsumer := .ok ⟨0⟩
      create := fun _ => .ok ⟨0⟩
      fetchMetadata := fun _ _ _ => .ok () } ⟨0⟩ ⟨0⟩ rfl rfl).1.mpr rfl

/-- C7: when rendering the topic template against the sentinel event fails,
the probe does not fail for that reason — it proceeds with an unscoped
metadata fetch (no topic); when rendering succeeds, the fetch is scoped to the
rendered topic. -/
theorem healthcheck_render_failure_unscoped (cfg : KafkaSinkConfig)
    (env : BrokerEnv) (client : ClientConfig) (consumer : BaseConsumer)
    (h1 : env.toRdkafkaConsumer = .ok client)
    (h2 : env.create client = .ok consumer) :
    (∀ err : RenderError, cfg.topic.renderString emptyEvent = .error err →
      healthcheck cfg env = fetchOutcome env consumer none) ∧
    (∀ t : String, cfg.topic.renderString emptyEvent = .ok t →
      healthcheck cfg env = fetchOutcome env consumer (some t)) := by
  constructor
  · intro err herr
    simp [healthcheck, h1, h2, herr, Except.toOption]
  · intro t ht
    simp [healthcheck, h1, h2, ht, Except.toOption]

/-- Closed instance of `healthcheck_render_failure_unscoped`: a template
referencing a field the sentinel event lacks still probes, unscoped. -/
theorem healthcheck_render_failure_unscoped_witness :
    healthcheck
      { exampleConfig with topic := ⟨[Seg.field "service"]⟩ }
      { toRdkafkaConsumer := .ok ⟨0⟩
        create := fun _ => .ok ⟨0⟩
        fetchMetadata := fun _ _ _ => .ok () } =
      fetchOutcome
        { toRdkafkaConsumer := .ok ⟨0⟩
          create := fun _ => .ok ⟨0⟩
          fetchMetadata := fun _ _ _ => .ok () } ⟨0⟩ none :=
  (healthcheck_render_failure_unscoped
    { exampleConfig with topic := ⟨[Seg.field "service"]⟩ }
    { toRdkafkaConsumer := .ok ⟨0⟩
      create := fun _ => .ok ⟨0⟩
      fetchMetadata := fun _ _ _ => .ok () } ⟨0⟩ ⟨0⟩ rfl rfl).1
    ⟨"service"⟩ rfl

/-- C10: a failed configuration conversion (line 113) or a failed consumer
creation (line 126) hits an `unwrap` and panics rather than returning a
health-error result; only a failure of the metadata fetch itself is returned
as `Err`. -/
theorem healthcheck_setup_unwraps (cfg : KafkaSinkConfig) (env : BrokerEnv) :
    (∀ e : KafkaError, env.toRdkafkaConsumer = .error e →
      healthcheck cfg env = .panicked) ∧
    (∀ (client : ClientConfig) (e : KafkaError),
      env.toRdkafkaConsumer = .ok client → env.create client = .error e →
      healthcheck cfg env = .panicked) ∧
    (∀ (client : ClientConfig) (consumer : BaseConsumer) (e : KafkaError),
      env.toRdkafkaConsumer = .ok client → env.create client = .ok consumer →
      env.fetchMetadata consumer ((cfg.topic.renderString emptyEvent).toOption)
        healthcheckTimeoutSecs = .error e →
      healthcheck cfg env = .failed (.kafka e)) := by
  refine ⟨?_, ?_, ?_⟩
  · intro e he
    simp [healthcheck, he]
  · intro client e hc he
    simp [healthcheck, hc, he]
  · intro client consumer e hc hcr hf
    simp [healthcheck, fetchOutcome, hc, hcr, hf]

/-- Closed instance of `healthcheck_setup_unwraps`: a failing configuration
conversion panics the probe. -/
theorem healthcheck_setup_unwraps_witness :
    healthcheck exampleConfig
      { toRdkafkaConsumer := .error ⟨1⟩
        create := fun _ => .ok ⟨0⟩
        fetchMetadata := fun _ _ _ => .ok () } = .panicked :=
  (healthcheck_setup_unwraps exampleConfig
    { toRdkafkaConsumer := .error ⟨1⟩
      create := fun _ => .ok ⟨0⟩
      fetchMetadata := fun _ _ _ => .ok () }).1 ⟨1⟩ rfl

end KafkaSinkSpec
